import Mathlib

/-!
# SPI BMP180 driver: command dispatch, framing and exclusive open

A shallow embedding of `src/spi_bmp180_driver.c` and `src/spi_bmp180.h`.

* Bytes (`uint8_t`) are natural numbers; buffers are lists of bytes.
* Return codes (`int` / `long`) are integers, negative errno values for errors.
* The SPI core (`spi_sync`), `msleep` and `copy_to_user` are external to the
  driver.  `spi_sync` is a field of the attached `spi_device`; the bus actions
  the driver performs and the bytes it hands to `copy_to_user` are recorded in
  the result of `spi_bmp180_ioctl`.
* The mutex `spi_lock` is a two-valued state, `Session.Free` / `Session.Held`.
-/

namespace SpiBmp180

/-! ## Error numbers (`errno-base.h`) -/

def EFAULT : Int := 14
def EBUSY : Int := 16
def ENODEV : Int := 19
def EINVAL : Int := 22

/-! ## ioctl numbers (`spi_bmp180.h`) -/

/-- Width of a kernel pointer: `sizeof(char *)` enters `SPI_CMD_READ_STUDENT`. -/
inductive PtrWidth where
  | ilp32
  | lp64
deriving DecidableEq, Repr

def PtrWidth.sizeof_ptr : PtrWidth → Nat
  | .ilp32 => 4
  | .lp64 => 8

/-- The generic ioctl number layout of `asm-generic/ioctl.h`:
`(dir << 30) | (type << 8) | (nr << 0) | (size << 16)`. -/
def ioc_number (dir type nr size : Nat) : Nat :=
  (dir <<< 30) ||| (type <<< 8) ||| (nr <<< 0) ||| (size <<< 16)

/-- Direction bits `_IOC_NONE`. -/
def IOC_NONE : Nat := 0
/-- Direction bits `_IOC_READ`. -/
def IOC_READ : Nat := 2

/-- The magic, the character k. -/
def SPI_IOC_MAGIC : Nat := 0x6b

def sizeof_float : Nat := 4
/-- Eleven 16-bit fields, no padding: `sizeof(struct calib_data)`. -/
def sizeof_calib_data : Nat := 22

def SPI_CMD_READ_TEMP : Nat := ioc_number IOC_READ SPI_IOC_MAGIC 0x01 sizeof_float
def SPI_CMD_READ_PRESS : Nat := ioc_number IOC_READ SPI_IOC_MAGIC 0x02 sizeof_float
def SPI_CMD_READ_ALT : Nat := ioc_number IOC_READ SPI_IOC_MAGIC 0x03 sizeof_float
def SPI_CMD_CALIBRATE : Nat := ioc_number IOC_NONE SPI_IOC_MAGIC 0x04 0
def SPI_CMD_READ_CALIB : Nat := ioc_number IOC_READ SPI_IOC_MAGIC 0x05 sizeof_calib_data
def SPI_CMD_READ_STUDENT (w : PtrWidth) : Nat :=
  ioc_number IOC_READ SPI_IOC_MAGIC 0x06 w.sizeof_ptr

/-- The six recognized ioctl numbers, in header order. -/
def recognized (w : PtrWidth) : List Nat :=
  [SPI_CMD_READ_TEMP, SPI_CMD_READ_PRESS, SPI_CMD_READ_ALT, SPI_CMD_CALIBRATE,
   SPI_CMD_READ_CALIB, SPI_CMD_READ_STUDENT w]

/-! ## Session guard: `spi_lock`, `spi_bmp180_open`, `spi_bmp180_release` -/

/-- State of the mutex `spi_lock`. -/
inductive Session where
  | Free
  | Held
deriving DecidableEq, Repr

/-- The function `mutex_trylock`: 1 and the lock taken when it was free, 0 otherwise. -/
def mutex_trylock : Session → Bool × Session
  | .Free => (true, .Held)
  | .Held => (false, .Held)

/-- The function `mutex_unlock`. -/
def mutex_unlock : Session → Session
  | _ => .Free

/-- Return value and new lock state of `spi_bmp180_open`. -/
def spi_bmp180_open (spi_lock : Session) : Int × Session :=
  let r := mutex_trylock spi_lock
  if !r.1 then (-EBUSY, r.2) else (0, r.2)

/-- Return value and new lock state of `spi_bmp180_release`. -/
def spi_bmp180_release (spi_lock : Session) : Int × Session :=
  (0, mutex_unlock spi_lock)

/-- A call on the device file. -/
inductive Call where
  | open
  | release
deriving DecidableEq, Repr

/-- Lock state together with the number of successful opens not yet released. -/
structure Guard where
  lock : Session
  outstanding : Nat
deriving DecidableEq, Repr

/-- One call: a successful open adds an outstanding holder, a release removes one. -/
def Guard.step (g : Guard) : Call → Guard
  | .open =>
    let r := spi_bmp180_open g.lock
    if r.1 = 0 then ⟨r.2, g.outstanding + 1⟩ else ⟨r.2, g.outstanding⟩
  | .release => ⟨(spi_bmp180_release g.lock).2, g.outstanding - 1⟩

/-- A sequence of calls from a given state. -/
def Guard.run (g : Guard) (calls : List Call) : Guard :=
  calls.foldl Guard.step g

/-- The guard at device attach. -/
def Guard.init : Guard := ⟨.Free, 0⟩

/-! ## Transport -/

def FRAME_LEN : Nat := 33

/-- The fields of `struct spi_transfer` the driver sets: the bytes of `tx_buf`,
whether `rx_buf` is set, and `len`. -/
structure spi_transfer where
  tx_buf : List Nat
  rx_buf : Bool
  len : Nat
deriving DecidableEq, Repr

/-- What the driver does on the bus. -/
inductive BusAction where
  | sync (t : spi_transfer)
  | msleep (ms : Nat)
deriving DecidableEq, Repr

/-- The attached device: `spi_sync` on a one-transfer message gives a status
(negative on failure) and the bytes clocked in. The two messages of one ioctl call
differ (length 1 without `rx_buf`, length 33 with it), so a function of the transfer
covers every behaviour of the bus within a call. -/
structure spi_device where
  spi_sync : spi_transfer → Int × List Nat

/-- The receive buffer after a transfer of `n` bytes into a zeroed buffer of `n` bytes. -/
def capture (n : Nat) (reply : List Nat) : List Nat :=
  (reply ++ List.replicate n 0).take n

/-- The function `strnlen`: index of the first zero byte among the first `maxlen`
bytes, `maxlen` when there is none. -/
def strnlen : List Nat → Nat → Nat
  | _, 0 => 0
  | [], _ + 1 => 0
  | c :: cs, n + 1 => if c = 0 then 0 else strnlen cs n + 1

/-- Reading `n` bytes starting at `buf`: indices inside `buf` give its bytes, an
index `i` past its end gives `beyond (i - buf.length)`, whatever follows the
buffer in memory. -/
def read_bytes (buf : List Nat) (beyond : Nat → Nat) (n : Nat) : List Nat :=
  (List.range n).map fun i => if h : i < buf.length then buf.get ⟨i, h⟩ else beyond (i - buf.length)

/-- The environment of one `spi_bmp180_ioctl` call. -/
structure Env where
  /-- The global `spi_dev`; `none` is `NULL`. -/
  spi_dev : Option spi_device
  /-- Result of `copy_to_user` on the given bytes: bytes left uncopied, 0 on success. -/
  copy_to_user : List Nat → Nat
  /-- The stack bytes that follow `rx_buf`. -/
  beyond : Nat → Nat

/-- Outcome of `spi_bmp180_ioctl`: return value, the bus actions in order, and the
bytes passed to `copy_to_user` when it was called. -/
structure IoctlResult where
  ret : Int
  bus : List BusAction
  user : Option (List Nat)
deriving DecidableEq, Repr

/-- The first `switch`: the byte stored in `cmd_buf[0]`, `none` for `default`. -/
def cmd_byte (w : PtrWidth) (cmd : Nat) : Option Nat :=
  if cmd = SPI_CMD_READ_TEMP then some 0x01
  else if cmd = SPI_CMD_READ_PRESS then some 0x02
  else if cmd = SPI_CMD_READ_ALT then some 0x03
  else if cmd = SPI_CMD_CALIBRATE then some 0x04
  else if cmd = SPI_CMD_READ_CALIB then some 0x05
  else if cmd = SPI_CMD_READ_STUDENT w then some 0x06
  else none

/-- The transfer `t_cmd`. -/
def t_cmd (cmd_buf : List Nat) : spi_transfer :=
  { tx_buf := cmd_buf, rx_buf := false, len := 1 }

/-- The transfer `t_data`; `dummy_tx` is zero-filled. -/
def t_data : spi_transfer :=
  { tx_buf := List.replicate FRAME_LEN 0, rx_buf := true, len := FRAME_LEN }

/-- The length computed in the `SPI_CMD_READ_STUDENT` branch. -/
def student_len (rx_buf : List Nat) : Nat :=
  let len := strnlen rx_buf FRAME_LEN
  if len ≥ 64 then 63 else len

/-- The second `switch`: the source bytes of `copy_to_user`, `none` when the
branch copies nothing. -/
def payload (w : PtrWidth) (cmd : Nat) (rx_buf : List Nat) (beyond : Nat → Nat) :
    Option (List Nat) :=
  if cmd = SPI_CMD_READ_TEMP ∨ cmd = SPI_CMD_READ_PRESS ∨ cmd = SPI_CMD_READ_ALT then
    -- memcpy into value, then copy_to_user of the sizeof(value) bytes of value
    some (read_bytes rx_buf beyond sizeof_float)
  else if cmd = SPI_CMD_READ_CALIB then
    -- memcpy into calib, then copy_to_user of the sizeof(calib) bytes of calib
    some (read_bytes rx_buf beyond sizeof_calib_data)
  else if cmd = SPI_CMD_READ_STUDENT w then
    some (read_bytes rx_buf beyond (student_len rx_buf + 1))
  else none

/-- The function `spi_bmp180_ioctl`. -/
def spi_bmp180_ioctl (w : PtrWidth) (env : Env) (cmd : Nat) : IoctlResult :=
  match env.spi_dev with
  | none => ⟨-ENODEV, [], none⟩
  | some dev =>
    match cmd_byte w cmd with
    | none => ⟨-EINVAL, [], none⟩
    | some op =>
      let ret := (dev.spi_sync (t_cmd [op])).1
      if ret < 0 then ⟨ret, [.sync (t_cmd [op])], none⟩
      else
        let bus := [.sync (t_cmd [op]), .msleep 50, .sync t_data]
        let r := dev.spi_sync t_data
        if r.1 < 0 then ⟨r.1, bus, none⟩
        else
          let rx_buf := capture FRAME_LEN r.2
          match payload w cmd rx_buf env.beyond with
          | none => ⟨0, bus, none⟩
          | some bytes =>
            if env.copy_to_user bytes ≠ 0 then ⟨-EFAULT, bus, some bytes⟩
            else ⟨0, bus, some bytes⟩

/-- A transport double: both transfers succeed and the data phase clocks in `frame`. -/
def double (frame : List Nat) : spi_device :=
  ⟨fun t => (0, if t.rx_buf then frame else [])⟩

/-- An environment where the double is attached and the caller's buffer is writable. -/
def env_ok (frame : List Nat) (beyond : Nat → Nat) : Env :=
  ⟨some (double frame), fun _ => 0, beyond⟩

/-- A transport whose command phase fails with the given status. -/
def double_cmd_fails (err : Int) : spi_device :=
  ⟨fun t => if t.rx_buf then (0, List.replicate FRAME_LEN 0) else (err, [])⟩

/-! ## Object representation of `float` and `struct calib_data` -/

/-- Byte order of the machine. -/
inductive ByteOrder where
  | little
  | big
deriving DecidableEq, Repr

/-- The two bytes of a 16-bit word `u` in memory order. -/
def u16_bytes (o : ByteOrder) (u : Nat) : List Nat :=
  match o with
  | .little => [u % 256, u / 256 % 256]
  | .big => [u / 256 % 256, u % 256]

/-- The 16-bit word stored as the bytes `b0`, `b1` in memory order. -/
def u16_of_bytes (o : ByteOrder) (b0 b1 : Nat) : Nat :=
  match o with
  | .little => b0 + 256 * b1
  | .big => 256 * b0 + b1

/-- The 16-bit word that represents an `int16_t` value (two's complement). -/
def u16_of_int16 (v : Int) : Nat := (v % 65536).toNat

/-- The `int16_t` value a 16-bit word represents. -/
def int16_of_u16 (u : Nat) : Int := if u < 32768 then (u : Int) else (u : Int) - 65536

/-- The four bytes of a 32-bit word in memory order: the object representation
of a `float` with that bit pattern. -/
def u32_bytes (o : ByteOrder) (p : Nat) : List Nat :=
  match o with
  | .little => [p % 256, p / 2 ^ 8 % 256, p / 2 ^ 16 % 256, p / 2 ^ 24 % 256]
  | .big => [p / 2 ^ 24 % 256, p / 2 ^ 16 % 256, p / 2 ^ 8 % 256, p % 256]

/-- The 32-bit word stored in four bytes. -/
def u32_of_bytes (o : ByteOrder) : List Nat → Option Nat
  | [b0, b1, b2, b3] =>
    match o with
    | .little => some (b0 + 2 ^ 8 * b1 + 2 ^ 16 * b2 + 2 ^ 24 * b3)
    | .big => some (2 ^ 24 * b0 + 2 ^ 16 * b1 + 2 ^ 8 * b2 + b3)
  | _ => none

/-- The value of a finite IEEE-754 binary32 bit pattern; `none` for infinities and NaN. -/
def binary32_value (p : Nat) : Option ℚ :=
  let s : Nat := p / 2 ^ 31 % 2
  let e : Nat := p / 2 ^ 23 % 256
  let f : Nat := p % 2 ^ 23
  let sign : ℚ := if s = 0 then 1 else -1
  if e = 255 then none
  else if e = 0 then some (sign * (f : ℚ) / 2 ^ 149)
  else if e < 150 then some (sign * ((2 ^ 23 + f : Nat) : ℚ) / 2 ^ (150 - e))
  else some (sign * ((2 ^ 23 + f : Nat) : ℚ) * 2 ^ (e - 150))

/-- The record `struct calib_data`. -/
structure calib_data where
  AC1 : Int
  AC2 : Int
  AC3 : Int
  AC4 : Nat
  AC5 : Nat
  AC6 : Nat
  B1 : Int
  B2 : Int
  MB : Int
  MC : Int
  MD : Int
deriving DecidableEq, Repr

/-- Range of `int16_t`. -/
def is_int16 (v : Int) : Prop := -32768 ≤ v ∧ v ≤ 32767

/-- Range of `uint16_t`. -/
def is_uint16 (u : Nat) : Prop := u ≤ 65535

instance (v : Int) : Decidable (is_int16 v) := by unfold is_int16; infer_instance
instance (u : Nat) : Decidable (is_uint16 u) := by unfold is_uint16; infer_instance

/-- Every field holds a value of its declared type. -/
def calib_data.valid (c : calib_data) : Prop :=
  is_int16 c.AC1 ∧ is_int16 c.AC2 ∧ is_int16 c.AC3 ∧
  is_uint16 c.AC4 ∧ is_uint16 c.AC5 ∧ is_uint16 c.AC6 ∧
  is_int16 c.B1 ∧ is_int16 c.B2 ∧ is_int16 c.MB ∧ is_int16 c.MC ∧ is_int16 c.MD

instance (c : calib_data) : Decidable c.valid := by unfold calib_data.valid; infer_instance

/-- The 22 bytes of a `struct calib_data` object: the fields in declared order,
each in machine byte order. -/
def calib_data.to_bytes (o : ByteOrder) (c : calib_data) : List Nat :=
  u16_bytes o (u16_of_int16 c.AC1) ++ u16_bytes o (u16_of_int16 c.AC2) ++
  u16_bytes o (u16_of_int16 c.AC3) ++
  u16_bytes o c.AC4 ++ u16_bytes o c.AC5 ++ u16_bytes o c.AC6 ++
  u16_bytes o (u16_of_int16 c.B1) ++ u16_bytes o (u16_of_int16 c.B2) ++
  u16_bytes o (u16_of_int16 c.MB) ++ u16_bytes o (u16_of_int16 c.MC) ++
  u16_bytes o (u16_of_int16 c.MD)

/-- The fields read from the 22 bytes of a `struct calib_data` object. -/
def calib_data.of_bytes (o : ByteOrder) : List Nat → Option calib_data
  | [a0, a1, a2, a3, a4, a5, a6, a7, a8, a9, a10, a11, a12, a13, a14, a15, a16, a17,
     a18, a19, a20, a21] =>
    some
      { AC1 := int16_of_u16 (u16_of_bytes o a0 a1)
        AC2 := int16_of_u16 (u16_of_bytes o a2 a3)
        AC3 := int16_of_u16 (u16_of_bytes o a4 a5)
        AC4 := u16_of_bytes o a6 a7
        AC5 := u16_of_bytes o a8 a9
        AC6 := u16_of_bytes o a10 a11
        B1 := int16_of_u16 (u16_of_bytes o a12 a13)
        B2 := int16_of_u16 (u16_of_bytes o a14 a15)
        MB := int16_of_u16 (u16_of_bytes o a16 a17)
        MC := int16_of_u16 (u16_of_bytes o a18 a19)
        MD := int16_of_u16 (u16_of_bytes o a20 a21) }
  | _ => none

/-- The calibration record of the end-to-end scenario. -/
def calib_example : calib_data :=
  { AC1 := 408, AC2 := -72, AC3 := -14383, AC4 := 32741, AC5 := 32757, AC6 := 23153,
    B1 := 6190, B2 := 4, MB := -32768, MC := -8711, MD := 2868 }

/-! ## Buffers -/

theorem capture_of_length (n : Nat) (frame : List Nat) (h : frame.length = n) :
    capture n frame = frame := by
  subst h
  simp [capture]

theorem read_bytes_length (buf : List Nat) (beyond : Nat → Nat) (n : Nat) :
    (read_bytes buf beyond n).length = n := by
  simp [read_bytes]

theorem read_bytes_of_le (buf : List Nat) (beyond : Nat → Nat) (n : Nat)
    (h : n ≤ buf.length) : read_bytes buf beyond n = buf.take n := by
  apply List.ext_getElem
  · simp [read_bytes, h]
  · intro i h1 h2
    have hi : i < n := by simpa [read_bytes] using h1
    have hb : i < buf.length := by omega
    simp [read_bytes, hb]

theorem read_bytes_succ_length (buf : List Nat) (beyond : Nat → Nat) :
    read_bytes buf beyond (buf.length + 1) = buf ++ [beyond 0] := by
  simp [read_bytes, List.range_succ]
  have h := read_bytes_of_le buf beyond buf.length (le_refl _)
  simp only [read_bytes, List.take_length] at h
  exact h

theorem strnlen_first_zero (pre post : List Nat) (n : Nat) (hpre : ∀ b ∈ pre, b ≠ 0)
    (hn : pre.length < n) : strnlen (pre ++ 0 :: post) n = pre.length := by
  induction pre generalizing n with
  | nil =>
    cases n with
    | zero => omega
    | succ m => simp [strnlen]
  | cons c cs ih =>
    cases n with
    | zero => simp at hn
    | succ m =>
      have hc : c ≠ 0 := hpre c (by simp)
      have hcs : ∀ b ∈ cs, b ≠ 0 := fun b hb => hpre b (by simp [hb])
      have hm : cs.length < m := by simpa using hn
      simp [strnlen, hc, ih m hcs hm]

theorem strnlen_no_zero (l : List Nat) (h : ∀ b ∈ l, b ≠ 0) : strnlen l l.length = l.length := by
  induction l with
  | nil => rfl
  | cons c cs ih =>
    have hc : c ≠ 0 := h c (by simp)
    have hcs : ∀ b ∈ cs, b ≠ 0 := fun b hb => h b (by simp [hb])
    simp [strnlen, hc, ih hcs]

/-! ## Command dispatch -/

theorem cmd_byte_of_recognized (w : PtrWidth) (cmd : Nat) (h : cmd ∈ recognized w) :
    ∃ op, cmd_byte w cmd = some op ∧ 1 ≤ op ∧ op ≤ 6 := by
  simp only [recognized, List.mem_cons, List.mem_singleton, List.not_mem_nil, or_false] at h
  rcases h with h | h | h | h | h | h <;> subst h <;> cases w <;>
    first
      | exact ⟨1, by decide, by decide, by decide⟩
      | exact ⟨2, by decide, by decide, by decide⟩
      | exact ⟨3, by decide, by decide, by decide⟩
      | exact ⟨4, by decide, by decide, by decide⟩
      | exact ⟨5, by decide, by decide, by decide⟩
      | exact ⟨6, by decide, by decide, by decide⟩

theorem cmd_byte_eq_none_iff (w : PtrWidth) (cmd : Nat) :
    cmd_byte w cmd = none ↔ cmd ∉ recognized w := by
  constructor
  · intro h hm
    obtain ⟨op, hop, _⟩ := cmd_byte_of_recognized w cmd hm
    rw [hop] at h
    exact Option.noConfusion h
  · intro h
    simp only [recognized, List.mem_cons, List.mem_singleton, List.not_mem_nil, or_false,
      not_or] at h
    obtain ⟨h1, h2, h3, h4, h5, h6⟩ := h
    simp [cmd_byte, h1, h2, h3, h4, h5, h6]

theorem cmd_byte_some_mem (w : PtrWidth) (cmd op : Nat) (h : cmd_byte w cmd = some op) :
    cmd ∈ recognized w := by
  by_contra hn
  rw [(cmd_byte_eq_none_iff w cmd).2 hn] at h
  exact Option.noConfusion h

/-- C1: each recognized command stores its table opcode in the command buffer,
the command-to-opcode map is injective on the six commands, its image is exactly
the bytes 0x01..0x06, and that byte is what the command-phase transfer carries. -/
theorem C1_command_opcode_map (w : PtrWidth) :
    (cmd_byte w SPI_CMD_READ_TEMP = some 0x01 ∧ cmd_byte w SPI_CMD_READ_PRESS = some 0x02 ∧
      cmd_byte w SPI_CMD_READ_ALT = some 0x03 ∧ cmd_byte w SPI_CMD_CALIBRATE = some 0x04 ∧
      cmd_byte w SPI_CMD_READ_CALIB = some 0x05 ∧
      cmd_byte w (SPI_CMD_READ_STUDENT w) = some 0x06) ∧
    (∀ c1 c2, c1 ∈ recognized w → c2 ∈ recognized w →
      cmd_byte w c1 = cmd_byte w c2 → c1 = c2) ∧
    (∀ b, (∃ c, c ∈ recognized w ∧ cmd_byte w c = some b) ↔ 1 ≤ b ∧ b ≤ 6) ∧
    (∀ (dev : spi_device) (copy : List Nat → Nat) (beyond : Nat → Nat) (c : Nat),
      c ∈ recognized w →
      ∃ b, cmd_byte w c = some b ∧
        (spi_bmp180_ioctl w ⟨some dev, copy, beyond⟩ c).bus.head? =
          some (.sync { tx_buf := [b], rx_buf := false, len := 1 })) := by
  refine ⟨?_, ?_, ?_, ?_⟩
  · cases w <;> decide
  · intro c1 c2 h1 h2
    simp only [recognized, List.mem_cons, List.mem_singleton, List.not_mem_nil, or_false]
      at h1 h2
    rcases h1 with h1 | h1 | h1 | h1 | h1 | h1 <;>
      rcases h2 with h2 | h2 | h2 | h2 | h2 | h2 <;> subst h1 <;> subst h2 <;>
      cases w <;> first | (intro _; rfl) | (intro h; revert h; decide)
  · intro b
    constructor
    · rintro ⟨c, hc, hb⟩
      obtain ⟨op, hop, h1, h6⟩ := cmd_byte_of_recognized w c hc
      rw [hop] at hb
      cases hb
      exact ⟨h1, h6⟩
    · rintro ⟨h1, h6⟩
      have hb : b = 1 ∨ b = 2 ∨ b = 3 ∨ b = 4 ∨ b = 5 ∨ b = 6 := by omega
      rcases hb with hb | hb | hb | hb | hb | hb <;> subst hb
      · exact ⟨SPI_CMD_READ_TEMP, by simp [recognized], by cases w <;> decide⟩
      · exact ⟨SPI_CMD_READ_PRESS, by simp [recognized], by cases w <;> decide⟩
      · exact ⟨SPI_CMD_READ_ALT, by simp [recognized], by cases w <;> decide⟩
      · exact ⟨SPI_CMD_CALIBRATE, by simp [recognized], by cases w <;> decide⟩
      · exact ⟨SPI_CMD_READ_CALIB, by simp [recognized], by cases w <;> decide⟩
      · exact ⟨SPI_CMD_READ_STUDENT w, by simp [recognized], by cases w <;> decide⟩
  · intro dev copy beyond c hc
    obtain ⟨op, hop, _, _⟩ := cmd_byte_of_recognized w c hc
    refine ⟨op, hop, ?_⟩
    simp only [spi_bmp180_ioctl, hop, t_cmd]
    split_ifs <;> try rfl
    split <;> (try split_ifs) <;> rfl

/-- C2: with the transport attached, every command value outside the six ioctl
numbers fails with -EINVAL, with no bus action (no transfer, no delay) and no
copy to the caller; the bare opcodes 0x01..0x06 are such values. -/
theorem C2_unknown_command_rejected (w : PtrWidth) (env : Env) (dev : spi_device) (cmd : Nat)
    (hdev : env.spi_dev = some dev) (hcmd : cmd ∉ recognized w) :
    spi_bmp180_ioctl w env cmd = { ret := -EINVAL, bus := [], user := none } ∧
    ∀ op, 1 ≤ op → op ≤ 6 → op ∉ recognized w := by
  constructor
  · simp only [spi_bmp180_ioctl, hdev, (cmd_byte_eq_none_iff w cmd).2 hcmd]
  · intro op h1 h6
    have hb : op = 1 ∨ op = 2 ∨ op = 3 ∨ op = 4 ∨ op = 5 ∨ op = 6 := by omega
    rcases hb with hb | hb | hb | hb | hb | hb <;> subst hb <;> cases w <;> decide

/-- C2 at the bare opcode 0x01 with a working transport attached. -/
theorem C2_unknown_command_rejected_witness :
    (env_ok [] (fun _ => 0)).spi_dev = some (double []) ∧ 0x01 ∉ recognized .lp64 ∧
    (spi_bmp180_ioctl .lp64 (env_ok [] (fun _ => 0)) 0x01 =
        { ret := -EINVAL, bus := [], user := none } ∧
      ∀ op, 1 ≤ op → op ≤ 6 → op ∉ recognized .lp64) :=
  ⟨rfl, by decide,
    C2_unknown_command_rejected .lp64 (env_ok [] (fun _ => 0)) (double []) 0x01 rfl (by decide)⟩

/-- C3: for a recognized command, a failing command-phase transfer makes the ioctl
return that status unchanged; the bus saw that one transfer only (no delay, no data
phase) and nothing was copied to the caller. -/
theorem C3_command_phase_failure (w : PtrWidth) (env : Env) (dev : spi_device) (cmd : Nat)
    (err : Int) (hdev : env.spi_dev = some dev) (hcmd : cmd ∈ recognized w)
    (herr : ∀ op, cmd_byte w cmd = some op →
      (dev.spi_sync { tx_buf := [op], rx_buf := false, len := 1 }).1 = err)
    (hneg : err < 0) :
    ∃ op, cmd_byte w cmd = some op ∧
      spi_bmp180_ioctl w env cmd =
        { ret := err, bus := [.sync { tx_buf := [op], rx_buf := false, len := 1 }],
          user := none } ∧
      (spi_bmp180_ioctl w env cmd).bus.length = 1 := by
  obtain ⟨op, hop, _, _⟩ := cmd_byte_of_recognized w cmd hcmd
  have h : spi_bmp180_ioctl w env cmd =
      { ret := err, bus := [.sync { tx_buf := [op], rx_buf := false, len := 1 }],
        user := none } := by
    simp only [spi_bmp180_ioctl, hdev, hop, t_cmd, herr op hop, if_pos hneg]
  exact ⟨op, hop, h, by rw [h]; rfl⟩

/-- C3 at SPI_CMD_READ_TEMP with a transport failing the command phase with -5 (EIO). -/
theorem C3_command_phase_failure_witness :
    SPI_CMD_READ_TEMP ∈ recognized .lp64 ∧ (-5 : Int) < 0 ∧
    ∃ op, cmd_byte .lp64 SPI_CMD_READ_TEMP = some op ∧
      spi_bmp180_ioctl .lp64 ⟨some (double_cmd_fails (-5)), fun _ => 0, fun _ => 0⟩
          SPI_CMD_READ_TEMP =
        { ret := -5, bus := [.sync { tx_buf := [op], rx_buf := false, len := 1 }],
          user := none } ∧
      (spi_bmp180_ioctl .lp64 ⟨some (double_cmd_fails (-5)), fun _ => 0, fun _ => 0⟩
          SPI_CMD_READ_TEMP).bus.length = 1 :=
  ⟨by decide, by decide,
    C3_command_phase_failure .lp64 ⟨some (double_cmd_fails (-5)), fun _ => 0, fun _ => 0⟩
      (double_cmd_fails (-5)) SPI_CMD_READ_TEMP (-5) rfl (by decide) (fun _ _ => rfl)
      (by decide)⟩

/-- C9: for a recognized command with the transport attached and both transfers
succeeding, the bus actions are exactly: one write-only transfer of length 1 carrying
the opcode, a 50 ms sleep, one full-duplex transfer of length 33 transmitting 33 zero
bytes. SPI_CMD_CALIBRATE then returns 0 and copies nothing to the caller. -/
theorem C9_wire_exchange_shape (w : PtrWidth) (env : Env) (dev : spi_device) (cmd : Nat)
    (hdev : env.spi_dev = some dev) (hcmd : cmd ∈ recognized w)
    (h1 : ∀ op, cmd_byte w cmd = some op →
      0 ≤ (dev.spi_sync { tx_buf := [op], rx_buf := false, len := 1 }).1)
    (h2 : 0 ≤ (dev.spi_sync
      { tx_buf := List.replicate 33 0, rx_buf := true, len := 33 }).1) :
    ∃ op, cmd_byte w cmd = some op ∧
      (spi_bmp180_ioctl w env cmd).bus =
        [.sync { tx_buf := [op], rx_buf := false, len := 1 }, .msleep 50,
         .sync { tx_buf := List.replicate 33 0, rx_buf := true, len := 33 }] ∧
      (cmd = SPI_CMD_CALIBRATE →
        (spi_bmp180_ioctl w env cmd).ret = 0 ∧ (spi_bmp180_ioctl w env cmd).user = none) := by
  obtain ⟨op, hop, _, _⟩ := cmd_byte_of_recognized w cmd hcmd
  have h1x : ¬ (dev.spi_sync (t_cmd [op])).1 < 0 := not_lt.mpr (h1 op hop)
  have h2x : ¬ (dev.spi_sync t_data).1 < 0 := not_lt.mpr h2
  refine ⟨op, hop, ?_, ?_⟩
  · simp only [spi_bmp180_ioctl, hdev, hop, if_neg h1x, if_neg h2x]
    split
    · rfl
    · split_ifs <;> rfl
  · intro hc
    subst hc
    have hp : ∀ rx b, payload w SPI_CMD_CALIBRATE rx b = none := by
      intro rx b
      cases w <;> simp [payload, SPI_CMD_CALIBRATE, SPI_CMD_READ_TEMP, SPI_CMD_READ_PRESS,
        SPI_CMD_READ_ALT, SPI_CMD_READ_CALIB, SPI_CMD_READ_STUDENT, ioc_number, IOC_READ,
        IOC_NONE, SPI_IOC_MAGIC, sizeof_float, sizeof_calib_data, PtrWidth.sizeof_ptr]
    simp only [spi_bmp180_ioctl, hdev, hop, if_neg h1x, if_neg h2x, hp, and_self]

/-- C9 at SPI_CMD_CALIBRATE against a transport where both transfers succeed. -/
theorem C9_wire_exchange_shape_witness :
    SPI_CMD_CALIBRATE ∈ recognized .lp64 ∧
    ∃ op, cmd_byte .lp64 SPI_CMD_CALIBRATE = some op ∧
      (spi_bmp180_ioctl .lp64 (env_ok [] (fun _ => 0)) SPI_CMD_CALIBRATE).bus =
        [.sync { tx_buf := [op], rx_buf := false, len := 1 }, .msleep 50,
         .sync { tx_buf := List.replicate 33 0, rx_buf := true, len := 33 }] ∧
      (SPI_CMD_CALIBRATE = SPI_CMD_CALIBRATE →
        (spi_bmp180_ioctl .lp64 (env_ok [] (fun _ => 0)) SPI_CMD_CALIBRATE).ret = 0 ∧
        (spi_bmp180_ioctl .lp64 (env_ok [] (fun _ => 0)) SPI_CMD_CALIBRATE).user = none) :=
  ⟨by decide,
    C9_wire_exchange_shape .lp64 (env_ok [] (fun _ => 0)) (double []) SPI_CMD_CALIBRATE rfl
      (by decide) (fun _ _ => le_refl _) (le_refl _)⟩

/-- C10 fails on the code: with the transport not attached, the unrecognized command
value 0 gets -ENODEV, not -EINVAL. -/
theorem C10_validation_order_counterexample :
    0 ∉ recognized .lp64 ∧
    (spi_bmp180_ioctl .lp64 ⟨none, fun _ => 0, fun _ => 0⟩ 0).ret = -ENODEV ∧
    (spi_bmp180_ioctl .lp64 ⟨none, fun _ => 0, fun _ => 0⟩ 0).ret ≠ -EINVAL := by
  decide

/-- C10 as amended: the attachment check comes first. While the transport is not
attached every command value, recognized or not, fails with -ENODEV and no bus
action; an unrecognized command fails with -EINVAL when the transport is attached. -/
theorem C10_attachment_checked_first (w : PtrWidth) (env : Env) (cmd : Nat)
    (hdev : env.spi_dev = none) :
    spi_bmp180_ioctl w env cmd = { ret := -ENODEV, bus := [], user := none } ∧
    ∀ (dev : spi_device) (copy : List Nat → Nat) (beyond : Nat → Nat),
      cmd ∉ recognized w →
      spi_bmp180_ioctl w ⟨some dev, copy, beyond⟩ cmd =
        { ret := -EINVAL, bus := [], user := none } := by
  constructor
  · simp only [spi_bmp180_ioctl, hdev]
  · intro dev copy beyond hc
    simp only [spi_bmp180_ioctl, (cmd_byte_eq_none_iff w cmd).2 hc]

/-- C10 as amended, at the unrecognized command value 0 with no transport attached. -/
theorem C10_attachment_checked_first_witness :
    (Env.mk none (fun _ => 0) (fun _ => 0)).spi_dev = none ∧
    (spi_bmp180_ioctl .lp64 ⟨none, fun _ => 0, fun _ => 0⟩ 0 =
        { ret := -ENODEV, bus := [], user := none } ∧
      ∀ (dev : spi_device) (copy : List Nat → Nat) (beyond : Nat → Nat),
        0 ∉ recognized .lp64 →
        spi_bmp180_ioctl .lp64 ⟨some dev, copy, beyond⟩ 0 =
          { ret := -EINVAL, bus := [], user := none }) :=
  ⟨rfl, C10_attachment_checked_first .lp64 ⟨none, fun _ => 0, fun _ => 0⟩ 0 rfl⟩

/-! ## Session guard -/

theorem Guard.step_inv (g : Guard) (c : Call)
    (h : g.outstanding = if g.lock = .Held then 1 else 0) :
    (g.step c).outstanding = if (g.step c).lock = .Held then 1 else 0 := by
  obtain ⟨l, n⟩ := g
  cases l <;> cases c <;> simp_all [Guard.step, spi_bmp180_open, spi_bmp180_release,
    mutex_trylock, mutex_unlock, EBUSY]

theorem Guard.run_inv (calls : List Call) (g : Guard)
    (h : g.outstanding = if g.lock = .Held then 1 else 0) :
    (g.run calls).outstanding = if (g.run calls).lock = .Held then 1 else 0 := by
  induction calls generalizing g with
  | nil => exact h
  | cons c cs ih => exact ih (g.step c) (Guard.step_inv g c h)

/-- C4: open on a free lock returns 0 and holds it; open on a held lock returns
-EBUSY and leaves it held; release returns 0 and frees the lock, after which open
succeeds; over any sequence of open and release calls from the free state the number
of successful opens not yet released is at most one, and is one exactly when the lock
is held. -/
theorem C4_session_exclusivity :
    spi_bmp180_open .Free = (0, .Held) ∧
    spi_bmp180_open .Held = (-EBUSY, .Held) ∧
    (∀ s, spi_bmp180_release s = (0, .Free)) ∧
    (∀ s, spi_bmp180_open (spi_bmp180_release s).2 = (0, .Held)) ∧
    (∀ calls : List Call, (Guard.init.run calls).outstanding ≤ 1 ∧
      ((Guard.init.run calls).lock = .Held ↔ (Guard.init.run calls).outstanding = 1)) := by
  refine ⟨rfl, rfl, ?_, ?_, ?_⟩
  · intro s; cases s <;> rfl
  · intro s; cases s <;> rfl
  · intro calls
    have h := Guard.run_inv calls Guard.init rfl
    rw [h]
    by_cases hl : (Guard.init.run calls).lock = .Held
    · simp [hl]
    · simp [hl]

/-! ## Decoding the received frame -/

theorem ioctl_user_of_success (w : PtrWidth) (env : Env) (dev : spi_device) (cmd : Nat)
    (hdev : env.spi_dev = some dev) (hok : (spi_bmp180_ioctl w env cmd).ret = 0) :
    (spi_bmp180_ioctl w env cmd).user =
      payload w cmd (capture FRAME_LEN (dev.spi_sync t_data).2) env.beyond := by
  simp only [spi_bmp180_ioctl, hdev] at hok ⊢
  cases hc : cmd_byte w cmd with
  | none =>
    simp only [hc] at hok
    exact absurd hok (by decide)
  | some op =>
    simp only [hc] at hok ⊢
    by_cases h1 : (dev.spi_sync (t_cmd [op])).1 < 0
    · simp only [if_pos h1] at hok
      omega
    · simp only [if_neg h1] at hok ⊢
      by_cases h2 : (dev.spi_sync t_data).1 < 0
      · simp only [if_pos h2] at hok
        omega
      · simp only [if_neg h2] at hok ⊢
        cases hp : payload w cmd (capture FRAME_LEN (dev.spi_sync t_data).2) env.beyond with
        | none => simp only [hp]
        | some bytes =>
          simp only [hp] at hok ⊢
          split_ifs <;> rfl

theorem payload_scalar (w : PtrWidth) (cmd : Nat) (rx : List Nat) (beyond : Nat → Nat)
    (h : cmd = SPI_CMD_READ_TEMP ∨ cmd = SPI_CMD_READ_PRESS ∨ cmd = SPI_CMD_READ_ALT) :
    payload w cmd rx beyond = some (read_bytes rx beyond sizeof_float) := by
  simp only [payload, if_pos h]

theorem payload_calib (w : PtrWidth) (rx : List Nat) (beyond : Nat → Nat) :
    payload w SPI_CMD_READ_CALIB rx beyond = some (read_bytes rx beyond sizeof_calib_data) := by
  have h : ¬ (SPI_CMD_READ_CALIB = SPI_CMD_READ_TEMP ∨ SPI_CMD_READ_CALIB = SPI_CMD_READ_PRESS ∨
      SPI_CMD_READ_CALIB = SPI_CMD_READ_ALT) := by decide
  simp only [payload, if_neg h, if_true]

theorem payload_student (w : PtrWidth) (rx : List Nat) (beyond : Nat → Nat) :
    payload w (SPI_CMD_READ_STUDENT w) rx beyond =
      some (read_bytes rx beyond (student_len rx + 1)) := by
  have h : ¬ (SPI_CMD_READ_STUDENT w = SPI_CMD_READ_TEMP ∨
      SPI_CMD_READ_STUDENT w = SPI_CMD_READ_PRESS ∨
      SPI_CMD_READ_STUDENT w = SPI_CMD_READ_ALT) := by cases w <;> decide
  have h5 : ¬ SPI_CMD_READ_STUDENT w = SPI_CMD_READ_CALIB := by cases w <;> decide
  simp only [payload, if_neg h, if_neg h5, if_true]

theorem u32_roundtrip (o : ByteOrder) (p : Nat) (h : p < 2 ^ 32) :
    u32_of_bytes o (u32_bytes o p) = some p := by
  cases o <;> simp only [u32_bytes, u32_of_bytes, Option.some.injEq] <;> omega

theorem u16_bytes_length (o : ByteOrder) (u : Nat) : (u16_bytes o u).length = 2 := by
  cases o <;> rfl

theorem calib_to_bytes_length (o : ByteOrder) (c : calib_data) :
    (c.to_bytes o).length = 22 := by
  simp [calib_data.to_bytes, u16_bytes_length]

theorem int16_roundtrip_little (v : Int) (h : is_int16 v) :
    int16_of_u16 (u16_of_bytes .little (u16_of_int16 v % 256) (u16_of_int16 v / 256 % 256))
      = v := by
  unfold is_int16 at h
  simp only [int16_of_u16, u16_of_bytes, u16_of_int16]
  split_ifs <;> omega

theorem int16_roundtrip_big (v : Int) (h : is_int16 v) :
    int16_of_u16 (u16_of_bytes .big (u16_of_int16 v / 256 % 256) (u16_of_int16 v % 256))
      = v := by
  unfold is_int16 at h
  simp only [int16_of_u16, u16_of_bytes, u16_of_int16]
  split_ifs <;> omega

theorem uint16_roundtrip_little (u : Nat) (h : is_uint16 u) :
    u16_of_bytes .little (u % 256) (u / 256 % 256) = u := by
  unfold is_uint16 at h
  simp only [u16_of_bytes]
  omega

theorem uint16_roundtrip_big (u : Nat) (h : is_uint16 u) :
    u16_of_bytes .big (u / 256 % 256) (u % 256) = u := by
  unfold is_uint16 at h
  simp only [u16_of_bytes]
  omega

theorem calib_roundtrip (o : ByteOrder) (c : calib_data) (h : c.valid) :
    calib_data.of_bytes o (c.to_bytes o) = some c := by
  obtain ⟨h1, h2, h3, h4, h5, h6, h7, h8, h9, h10, h11⟩ := h
  cases o
  · simp only [calib_data.to_bytes, u16_bytes, List.cons_append, List.nil_append,
      calib_data.of_bytes, int16_roundtrip_little _ h1, int16_roundtrip_little _ h2,
      int16_roundtrip_little _ h3, uint16_roundtrip_little _ h4, uint16_roundtrip_little _ h5,
      uint16_roundtrip_little _ h6, int16_roundtrip_little _ h7, int16_roundtrip_little _ h8,
      int16_roundtrip_little _ h9, int16_roundtrip_little _ h10, int16_roundtrip_little _ h11]
  · simp only [calib_data.to_bytes, u16_bytes, List.cons_append, List.nil_append,
      calib_data.of_bytes, int16_roundtrip_big _ h1, int16_roundtrip_big _ h2,
      int16_roundtrip_big _ h3, uint16_roundtrip_big _ h4, uint16_roundtrip_big _ h5,
      uint16_roundtrip_big _ h6, int16_roundtrip_big _ h7, int16_roundtrip_big _ h8,
      int16_roundtrip_big _ h9, int16_roundtrip_big _ h10, int16_roundtrip_big _ h11]

theorem student_len_no_zero (frame : List Nat) (hlen : frame.length = FRAME_LEN)
    (hnz : ∀ b ∈ frame, b ≠ 0) : student_len frame = FRAME_LEN := by
  have h := strnlen_no_zero frame hnz
  rw [hlen] at h
  simp only [student_len, h]
  decide

theorem ioctl_student_no_zero (w : PtrWidth) (frame : List Nat) (beyond : Nat → Nat)
    (hlen : frame.length = FRAME_LEN) (hnz : ∀ b ∈ frame, b ≠ 0) :
    spi_bmp180_ioctl w (env_ok frame beyond) (SPI_CMD_READ_STUDENT w) =
      { ret := 0,
        bus := [.sync { tx_buf := [6], rx_buf := false, len := 1 }, .msleep 50,
                .sync { tx_buf := List.replicate 33 0, rx_buf := true, len := 33 }],
        user := some (frame ++ [beyond 0]) } := by
  have hc : cmd_byte w (SPI_CMD_READ_STUDENT w) = some 6 := by cases w <;> decide
  have hr : read_bytes frame beyond (FRAME_LEN + 1) = frame ++ [beyond 0] := by
    rw [← hlen]
    exact read_bytes_succ_length frame beyond
  have h0 : ¬ ((0 : Int) < 0) := by decide
  have hd : ((double frame).spi_sync t_data).2 = frame := rfl
  have h1 : ∀ t, ((double frame).spi_sync t).1 = 0 := fun _ => rfl
  simp only [spi_bmp180_ioctl, env_ok, hc, h1, if_neg h0, hd, capture_of_length _ _ hlen,
    payload_student, student_len_no_zero frame hlen hnz, hr, ne_eq, not_true_eq_false,
    if_false]
  rfl

/-- C8: a successful scalar read (temperature, pressure or altitude) hands the
caller exactly the 4 bytes frame[0..3] in order, whatever the other 29 bytes are; a
32-bit pattern written in machine byte order at the start of the frame is read back
unchanged from the delivered bytes. -/
theorem C8_scalar_bit_exact (w : PtrWidth) (env : Env) (dev : spi_device) (cmd : Nat)
    (head rest : List Nat) (hdev : env.spi_dev = some dev)
    (hcmd : cmd = SPI_CMD_READ_TEMP ∨ cmd = SPI_CMD_READ_PRESS ∨ cmd = SPI_CMD_READ_ALT)
    (hframe : (dev.spi_sync t_data).2 = head ++ rest)
    (hhead : head.length = 4) (hrest : rest.length = 29)
    (hok : (spi_bmp180_ioctl w env cmd).ret = 0) :
    (spi_bmp180_ioctl w env cmd).user = some head ∧
    ∀ (o : ByteOrder) (p : Nat), p < 2 ^ 32 → head = u32_bytes o p →
      ((spi_bmp180_ioctl w env cmd).user.bind (u32_of_bytes o)) = some p := by
  have hlen : (head ++ rest).length = FRAME_LEN := by
    simp [hhead, hrest, FRAME_LEN]
  have hu : (spi_bmp180_ioctl w env cmd).user = some head := by
    rw [ioctl_user_of_success w env dev cmd hdev hok, hframe, capture_of_length _ _ hlen,
      payload_scalar w cmd _ _ hcmd, read_bytes_of_le _ _ _ (by simp [sizeof_float, hhead])]
    simp [sizeof_float, ← hhead]
  refine ⟨hu, ?_⟩
  intro o p hp hh
  rw [hu, hh]
  exact u32_roundtrip o p hp

/-- C8 at SPI_CMD_READ_TEMP on a little-endian machine: the frame starts with the
pattern 0x41CC0000, which is the binary32 value 25.5, and the delivered bytes carry
that pattern. -/
theorem C8_scalar_bit_exact_witness :
    binary32_value 0x41CC0000 = some (51 / 2) ∧
    (spi_bmp180_ioctl .lp64
      (env_ok (u32_bytes .little 0x41CC0000 ++ List.replicate 29 0xEE) (fun _ => 0xFF))
      SPI_CMD_READ_TEMP).ret = 0 ∧
    ((spi_bmp180_ioctl .lp64
      (env_ok (u32_bytes .little 0x41CC0000 ++ List.replicate 29 0xEE) (fun _ => 0xFF))
      SPI_CMD_READ_TEMP).user = some (u32_bytes .little 0x41CC0000) ∧
    ∀ (o : ByteOrder) (p : Nat), p < 2 ^ 32 → u32_bytes .little 0x41CC0000 = u32_bytes o p →
      ((spi_bmp180_ioctl .lp64
        (env_ok (u32_bytes .little 0x41CC0000 ++ List.replicate 29 0xEE) (fun _ => 0xFF))
        SPI_CMD_READ_TEMP).user.bind (u32_of_bytes o)) = some p) :=
  ⟨by norm_num [binary32_value], by decide,
    C8_scalar_bit_exact .lp64
      (env_ok (u32_bytes .little 0x41CC0000 ++ List.replicate 29 0xEE) (fun _ => 0xFF))
      (double (u32_bytes .little 0x41CC0000 ++ List.replicate 29 0xEE)) SPI_CMD_READ_TEMP
      (u32_bytes .little 0x41CC0000) (List.replicate 29 0xEE) rfl (Or.inl rfl) rfl
      (by decide) (by decide) (by decide)⟩

/-- C5: when the frame starts with the 22 bytes of a calibration record (fields in
declared order, machine byte order) followed by any 11 bytes, a successful
SPI_CMD_READ_CALIB hands the caller a 22-byte record, those same 22 bytes, whose
eleven fields are the original values. -/
theorem C5_calibration_round_trip (w : PtrWidth) (o : ByteOrder) (env : Env)
    (dev : spi_device) (c : calib_data) (trailing : List Nat)
    (hdev : env.spi_dev = some dev) (hvalid : c.valid) (htrail : trailing.length = 11)
    (hframe : (dev.spi_sync t_data).2 = c.to_bytes o ++ trailing)
    (hok : (spi_bmp180_ioctl w env SPI_CMD_READ_CALIB).ret = 0) :
    ∃ record, (spi_bmp180_ioctl w env SPI_CMD_READ_CALIB).user = some record ∧
      record.length = 22 ∧ record = c.to_bytes o ∧
      calib_data.of_bytes o record = some c := by
  have hb := calib_to_bytes_length o c
  have hlen : (c.to_bytes o ++ trailing).length = FRAME_LEN := by
    simp [hb, htrail, FRAME_LEN]
  refine ⟨c.to_bytes o, ?_, hb, rfl, calib_roundtrip o c hvalid⟩
  rw [ioctl_user_of_success w env dev _ hdev hok, hframe, capture_of_length _ _ hlen,
    payload_calib, read_bytes_of_le _ _ _ (by simp [sizeof_calib_data, hb])]
  simp [sizeof_calib_data, ← hb]

/-- C5 at the record of the end-to-end scenario, little-endian, with trailing bytes
0xEE: the delivered record decodes to AC1=408, AC2=-72, AC3=-14383, AC4=32741,
AC5=32757, AC6=23153, B1=6190, B2=4, MB=-32768, MC=-8711, MD=2868. -/
theorem C5_calibration_round_trip_witness :
    calib_example.valid ∧
    (spi_bmp180_ioctl .lp64
      (env_ok (calib_example.to_bytes .little ++ List.replicate 11 0xEE) (fun _ => 0xFF))
      SPI_CMD_READ_CALIB).ret = 0 ∧
    ∃ record, (spi_bmp180_ioctl .lp64
        (env_ok (calib_example.to_bytes .little ++ List.replicate 11 0xEE) (fun _ => 0xFF))
        SPI_CMD_READ_CALIB).user = some record ∧
      record.length = 22 ∧ record = calib_example.to_bytes .little ∧
      calib_data.of_bytes .little record =
        some { AC1 := 408, AC2 := -72, AC3 := -14383, AC4 := 32741, AC5 := 32757,
               AC6 := 23153, B1 := 6190, B2 := 4, MB := -32768, MC := -8711, MD := 2868 } :=
  ⟨by decide, by decide,
    C5_calibration_round_trip .lp64 .little
      (env_ok (calib_example.to_bytes .little ++ List.replicate 11 0xEE) (fun _ => 0xFF))
      (double (calib_example.to_bytes .little ++ List.replicate 11 0xEE)) calib_example
      (List.replicate 11 0xEE) rfl (by decide) (by decide) rfl (by decide)⟩

/-- C6: when the first zero byte of the 33-byte frame is at index k (the frame is k
non-zero bytes, a zero, then anything), a successful SPI_CMD_READ_STUDENT hands the
caller exactly k+1 bytes: those k bytes followed by the zero; the decoded length is
k and the bytes after the zero play no part. -/
theorem C6_identity_with_terminator (w : PtrWidth) (env : Env) (dev : spi_device)
    (pre post : List Nat) (hdev : env.spi_dev = some dev)
    (hframe : (dev.spi_sync t_data).2 = pre ++ 0 :: post)
    (hlen : (pre ++ 0 :: post).length = 33) (hpre : ∀ b ∈ pre, b ≠ 0)
    (hok : (spi_bmp180_ioctl w env (SPI_CMD_READ_STUDENT w)).ret = 0) :
    ∃ out, (spi_bmp180_ioctl w env (SPI_CMD_READ_STUDENT w)).user = some out ∧
      out = pre ++ [0] ∧ out.length = pre.length + 1 ∧
      student_len (pre ++ 0 :: post) = pre.length := by
  have hk : pre.length < FRAME_LEN := by
    simp only [List.length_append, List.length_cons] at hlen
    simp only [FRAME_LEN]
    omega
  have hs : student_len (pre ++ 0 :: post) = pre.length := by
    have h64 : ¬ pre.length ≥ 64 := by simp only [FRAME_LEN] at hk; omega
    simp only [student_len, strnlen_first_zero pre post FRAME_LEN hpre hk, if_neg h64]
  refine ⟨pre ++ [0], ?_, rfl, by simp, hs⟩
  rw [ioctl_user_of_success w env dev _ hdev hok, hframe,
    capture_of_length _ _ (by rw [hlen]; rfl), payload_student, hs,
    read_bytes_of_le _ _ _ (by simp)]
  simp [List.take_append_eq_append_take]

/-- C6 at a frame that starts with G12345 and a zero byte, followed by 26 bytes 0xEE:
the caller gets G12345 and the terminator, length 6. -/
theorem C6_identity_with_terminator_witness :
    (∀ b ∈ [0x47, 0x31, 0x32, 0x33, 0x34, 0x35], b ≠ 0) ∧
    ([0x47, 0x31, 0x32, 0x33, 0x34, 0x35] ++ 0 :: List.replicate 26 0xEE).length = 33 ∧
    ∃ out, (spi_bmp180_ioctl .lp64
        (env_ok ([0x47, 0x31, 0x32, 0x33, 0x34, 0x35] ++ 0 :: List.replicate 26 0xEE)
          (fun _ => 0xFF))
        (SPI_CMD_READ_STUDENT .lp64)).user = some out ∧
      out = [0x47, 0x31, 0x32, 0x33, 0x34, 0x35] ++ [0] ∧
      out.length = [0x47, 0x31, 0x32, 0x33, 0x34, 0x35].length + 1 ∧
      student_len ([0x47, 0x31, 0x32, 0x33, 0x34, 0x35] ++ 0 :: List.replicate 26 0xEE) =
        [0x47, 0x31, 0x32, 0x33, 0x34, 0x35].length :=
  ⟨by decide, by decide,
    C6_identity_with_terminator .lp64
      (env_ok ([0x47, 0x31, 0x32, 0x33, 0x34, 0x35] ++ 0 :: List.replicate 26 0xEE)
        (fun _ => 0xFF))
      (double ([0x47, 0x31, 0x32, 0x33, 0x34, 0x35] ++ 0 :: List.replicate 26 0xEE))
      [0x47, 0x31, 0x32, 0x33, 0x34, 0x35] (List.replicate 26 0xEE) rfl rfl (by decide)
      (by decide) (by decide)⟩

/-- C7 on the code: for a 33-byte frame without a zero byte the decoded length is 33
and the copy takes 34 bytes starting at the frame buffer, so it reads index 33, past
the end of the 33-byte buffer; the caller gets the 33 frame bytes followed by the
byte that lies after the buffer, which need not be zero. -/
theorem C7_identity_overread :
    (∀ b ∈ List.replicate 33 0x41, b ≠ 0) ∧
    student_len (List.replicate 33 0x41) = 33 ∧
    ¬ (student_len (List.replicate 33 0x41) + 1 ≤ FRAME_LEN) ∧
    (∀ beyond : Nat → Nat,
      spi_bmp180_ioctl .lp64 (env_ok (List.replicate 33 0x41) beyond)
          (SPI_CMD_READ_STUDENT .lp64) =
        { ret := 0,
          bus := [.sync { tx_buf := [6], rx_buf := false, len := 1 }, .msleep 50,
                  .sync { tx_buf := List.replicate 33 0, rx_buf := true, len := 33 }],
          user := some (List.replicate 33 0x41 ++ [beyond 0]) }) ∧
    (spi_bmp180_ioctl .lp64 (env_ok (List.replicate 33 0x41) (fun _ => 0xFF))
        (SPI_CMD_READ_STUDENT .lp64)).user = some (List.replicate 33 0x41 ++ [0xFF]) := by
  refine ⟨by decide, by decide, by decide, ?_, by decide⟩
  intro beyond
  exact ioctl_student_no_zero .lp64 (List.replicate 33 0x41) beyond (by decide) (by decide)

end SpiBmp180
